import Mathlib

/-!
# Verification of the LegoRcCar teleoperation controller (`Code.py`)

Shallow embedding of the event-to-actuation core of `Code.py`: the steering
normalizer, the trim state, the per-event dispatch of the main loop, the
setup error handling, and the shutdown control flow.  External effects
(motor commands, prints, speech, sound playback) are modelled as explicit
command values emitted by each step; the actuator position feedback
(`steering_motor.position`) is an input to each step.
-/

namespace LegoRcCar

/-! ## Configuration constants (`Code.py` lines 8-29) -/

def CONTROLLER_PATH : String := "/dev/input/event2"

def ACCEL_CODE : Int := 313

def REVERSE_CODE : Int := 314

def BRAKE_CODE : Int := 312

def HORN_CODE : Int := 304

def HORN2_CODE : Int := 305

def STOP_SOUND_CODE : Int := 308

def STEERING_AXIS_CODE : Int := 0

def TRIM_AXIS_CODE : Int := 16

def TRIM_STEP : Int := 1

def MAX_TRIM : Int := 45

def FULL_SPEED : Int := 100

def AXIS_MIN : Int := 0

def AXIS_MAX : Int := 255

def AXIS_MID : Int := 128

def STEERING_DEADZONE : Int := 10

def STEERING_MAX_ANGLE : Int := 90

def STEERING_SPEED : Int := 720

/-- Linux evdev constant `ecodes.EV_ABS` (= 3), used at lines 81 and 96. -/
def EV_ABS : Int := 3

/-- Linux evdev constant `ecodes.EV_KEY` (= 1), used at line 113. -/
def EV_KEY : Int := 1

/-- Initial value of the global `steering_trim` (line 32). -/
def steering_trim_init : Int := 0

/-- `normalize_steering` (lines 41-57).  The Python global `steering_trim` is
threaded as an explicit argument.  The proportional branch computes
`int((raw_value - AXIS_MID) / (AXIS_MAX - AXIS_MID) * STEERING_MAX_ANGLE + steering_trim)`
in IEEE double arithmetic, where `int` truncates toward zero; for all integer
inputs `raw_value ∈ [0, 255]` the double result differs from the exact rational
`((raw_value - 128) * 90 + steering_trim * 127) / 127` by far less than `1/127`
(and is exact whenever the rational is an integer, namely at `raw_value ∈ {1, 255}`),
so truncation of the double equals truncation of the exact rational.
`Int.tdiv` is truncation toward zero, matching Python `int()`. -/
def normalize_steering (raw_value steering_trim : Int) : Int :=
  if AXIS_MID - STEERING_DEADZONE ≤ raw_value ∧ raw_value ≤ AXIS_MID + STEERING_DEADZONE then
    steering_trim
  else
    Int.tdiv ((raw_value - AXIS_MID) * STEERING_MAX_ANGLE + steering_trim * (AXIS_MAX - AXIS_MID))
      (AXIS_MAX - AXIS_MID)

/-! ## Helper lemmas about truncating division by 127 -/

/-- Truncating division by 127 expressed through Euclidean division. -/
theorem tdiv127_eq (a : Int) : a.tdiv 127 = if 0 ≤ a then a / 127 else -((-a) / 127) := by
  rcases le_or_lt 0 a with ha | ha
  · rw [if_pos ha, Int.tdiv_eq_ediv ha (by omega)]
  · rw [if_neg (by omega)]
    have h := Int.tdiv_eq_ediv (a := -a) (b := 127) (by omega) (by omega)
    rw [Int.neg_tdiv] at h
    omega

/-- Truncating division by 127 is monotone. -/
theorem tdiv127_mono {a b : Int} (h : a ≤ b) : a.tdiv 127 ≤ b.tdiv 127 := by
  rw [tdiv127_eq, tdiv127_eq]
  split_ifs <;> omega

/-! ## Claims about the steering normalizer -/

/-- C1: for every raw axis value in `[118, 138]` (midpoint 128 ± deadzone 10)
and every trim value in `[-45, 45]`, `normalize_steering` returns exactly the
current trim value. -/
theorem C1_deadzone_returns_trim (raw_value steering_trim : Int)
    (h1 : 118 ≤ raw_value) (h2 : raw_value ≤ 138)
    (h3 : -45 ≤ steering_trim) (h4 : steering_trim ≤ 45) :
    normalize_steering raw_value steering_trim = steering_trim := by
  simp only [normalize_steering, AXIS_MID, STEERING_DEADZONE]
  rw [if_pos (by omega)]

/-- Witness for C1 at `raw_value = 128`, `steering_trim = 7`. -/
theorem C1_witness : normalize_steering 128 7 = 7 :=
  C1_deadzone_returns_trim 128 7 (by decide) (by decide) (by decide) (by decide)

/-- C4: for every fixed trim, `normalize_steering` is monotone non-decreasing
in the raw value over raw values outside the deadzone; at zero trim it maps
255 to exactly 90 and 0 to exactly -90, and the values just outside the
deadzone boundary map to -7 and 7 (approximately 0). -/
theorem C4_proportional_scaling :
    (∀ steering_trim r1 r2 : Int,
      (r1 < AXIS_MID - STEERING_DEADZONE ∨ AXIS_MID + STEERING_DEADZONE < r1) →
      (r2 < AXIS_MID - STEERING_DEADZONE ∨ AXIS_MID + STEERING_DEADZONE < r2) →
      r1 ≤ r2 →
      normalize_steering r1 steering_trim ≤ normalize_steering r2 steering_trim) ∧
    normalize_steering 255 0 = 90 ∧ normalize_steering 0 0 = -90 ∧
    normalize_steering 117 0 = -7 ∧ normalize_steering 139 0 = 7 := by
  refine ⟨?_, by decide, by decide, by decide, by decide⟩
  intro t r1 r2 h1 h2 h12
  simp only [normalize_steering, AXIS_MID, STEERING_DEADZONE, AXIS_MAX, STEERING_MAX_ANGLE] at *
  rw [if_neg (by omega), if_neg (by omega)]
  norm_num only
  exact tdiv127_mono (by omega)

/-- Witness for C4: monotonicity applied at `r1 = 139`, `r2 = 200`, trim 5. -/
theorem C4_witness : normalize_steering 139 5 ≤ normalize_steering 200 5 :=
  C4_proportional_scaling.1 5 139 200 (by right; decide) (by right; decide) (by decide)

/-! ## Events, commands and the per-event step of the main loop -/

/-- A raw evdev event, as read from `dev.read_loop()` (line 78). -/
structure RawEvent where
  type : Int
  code : Int
  value : Int
  deriving DecidableEq

/-- `stop_action` values of the steering motor. -/
inductive StopAction
  | coast
  | brake
  deriving DecidableEq

/-- Observable external effects issued by the program: motor commands, the
trim log line of line 106, the spoken announcement of line 107 (the text is
`"Trim {t} degrees"`), sound playback, and the shutdown calls. -/
inductive Cmd
  | steerTo (position_sp speed_sp : Int) (stop_action : StopAction)
  | tankOn (left_speed right_speed : Int)
  | tankOff (brake : Bool)
  | printTrim (t : Int)
  | speakTrim (t : Int)
  | playFile (path : String)
  | speakerStop
  | setStopAction (a : StopAction)
  | steerOff
  deriving DecidableEq

/-- The `EV_KEY` branch of the main loop (lines 113-151): drive and sound
keys.  Returns the list (empty or singleton) of commands issued. -/
def keyCmds (code value : Int) : List Cmd :=
  if code = ACCEL_CODE then
    if value = 1 then [Cmd.tankOn FULL_SPEED FULL_SPEED]
    else if value = 0 then [Cmd.tankOff false]
    else []
  else if code = REVERSE_CODE then
    if value = 1 then [Cmd.tankOn (-FULL_SPEED) (-FULL_SPEED)]
    else if value = 0 then [Cmd.tankOff false]
    else []
  else if code = BRAKE_CODE then
    if value = 1 then [Cmd.tankOff true]
    else if value = 0 then [Cmd.tankOff false]
    else []
  else if code = HORN_CODE then
    if value = 1 then [Cmd.playFile "/home/robot/VSCODE/Horn.wav"] else []
  else if code = HORN2_CODE then
    if value = 1 then [Cmd.playFile "/home/robot/VSCODE/Horn2.wav"] else []
  else if code = STOP_SOUND_CODE then
    if value = 1 then [Cmd.speakerStop] else []
  else []

/-- One iteration of the main loop (lines 78-151): given the current trim,
the steering motor position feedback (`steering_motor.position`, line 87) and
the event, returns the new trim and the commands issued, in order. -/
def step (steering_trim position : Int) (e : RawEvent) : Int × List Cmd :=
  if e.type = EV_ABS ∧ e.code = STEERING_AXIS_CODE then
    let target_angle := normalize_steering e.value steering_trim
    if AXIS_MID - STEERING_DEADZONE ≤ e.value ∧ e.value ≤ AXIS_MID + STEERING_DEADZONE then
      if 1 < |position - target_angle| then
        (steering_trim, [Cmd.steerTo target_angle STEERING_SPEED StopAction.coast])
      else
        (steering_trim, [])
    else
      (steering_trim, [Cmd.steerTo target_angle STEERING_SPEED StopAction.coast])
  else if e.type = EV_ABS ∧ e.code = TRIM_AXIS_CODE ∧ e.value ≠ 0 then
    let t1 :=
      if e.value = -1 then steering_trim - TRIM_STEP
      else if e.value = 1 then steering_trim + TRIM_STEP
      else steering_trim
    let t2 := max (-MAX_TRIM) (min MAX_TRIM t1)
    (t2, [Cmd.printTrim t2, Cmd.speakTrim t2, Cmd.steerTo t2 STEERING_SPEED StopAction.coast])
  else if e.type = EV_KEY then
    (steering_trim, keyCmds e.code e.value)
  else
    (steering_trim, [])

/-- Run the main loop over a list of events, with a fixed position feedback,
threading the trim state and concatenating the issued commands in event
arrival order. -/
def run (steering_trim position : Int) : List RawEvent → Int × List Cmd
  | [] => (steering_trim, [])
  | e :: rest =>
    let r := step steering_trim position e
    let r2 := run r.1 position rest
    (r2.1, r.2 ++ r2.2)

/-! ## Claims about the main-loop dispatch -/

/-- Shape of the steering-axis branch of the loop (lines 81-93). -/
theorem step_steering_eq (steering_trim position raw_value : Int) :
    step steering_trim position (RawEvent.mk EV_ABS STEERING_AXIS_CODE raw_value) =
      (steering_trim,
        if 118 ≤ raw_value ∧ raw_value ≤ 138 then
          if 1 < |position - normalize_steering raw_value steering_trim| then
            [Cmd.steerTo (normalize_steering raw_value steering_trim) STEERING_SPEED
              StopAction.coast]
          else []
        else
          [Cmd.steerTo (normalize_steering raw_value steering_trim) STEERING_SPEED
            StopAction.coast]) := by
  simp only [step, EV_ABS, EV_KEY, STEERING_AXIS_CODE, TRIM_AXIS_CODE, AXIS_MID,
    STEERING_DEADZONE]
  norm_num
  split_ifs <;> rfl

/-- C2: on a steering-axis event, if the raw value is within the deadzone of
the midpoint then a command is issued precisely when the actuator position
differs from the target by more than 1 degree; outside the deadzone the
command is always issued.  Concretely, with raw 128, trim 10, position 10 no
command is issued, and with position 5 exactly one command with target 10 is
issued. -/
theorem C2_steering_dispatch :
    (∀ steering_trim position raw_value : Int,
      |raw_value - AXIS_MID| ≤ STEERING_DEADZONE →
      (step steering_trim position (RawEvent.mk EV_ABS STEERING_AXIS_CODE raw_value)).2 =
        (if 1 < |position - normalize_steering raw_value steering_trim| then
          [Cmd.steerTo (normalize_steering raw_value steering_trim) STEERING_SPEED
            StopAction.coast]
        else [])) ∧
    (∀ steering_trim position raw_value : Int,
      STEERING_DEADZONE < |raw_value - AXIS_MID| →
      (step steering_trim position (RawEvent.mk EV_ABS STEERING_AXIS_CODE raw_value)).2 =
        [Cmd.steerTo (normalize_steering raw_value steering_trim) STEERING_SPEED
          StopAction.coast]) ∧
    (step 10 10 (RawEvent.mk EV_ABS STEERING_AXIS_CODE 128)).2 = [] ∧
    (step 10 5 (RawEvent.mk EV_ABS STEERING_AXIS_CODE 128)).2 =
      [Cmd.steerTo 10 STEERING_SPEED StopAction.coast] := by
  refine ⟨?_, ?_, by decide, by decide⟩
  · intro t pos raw h
    rw [step_steering_eq]
    simp only [AXIS_MID, STEERING_DEADZONE] at h
    rw [abs_le] at h
    rw [if_pos (by omega)]
  · intro t pos raw h
    rw [step_steering_eq]
    simp only [AXIS_MID, STEERING_DEADZONE] at h
    rw [lt_abs] at h
    rw [if_neg (by omega)]

/-- Witness for C2: the deadzone case applied at trim 10, position 5, raw 128. -/
theorem C2_witness :
    (step 10 5 (RawEvent.mk EV_ABS STEERING_AXIS_CODE 128)).2 =
      (if 1 < |(5 : Int) - normalize_steering 128 10| then
        [Cmd.steerTo (normalize_steering 128 10) STEERING_SPEED StopAction.coast]
      else []) :=
  C2_steering_dispatch.1 10 5 128 (by decide)

/-- C3: the trim state starts at 0; for every event the resulting trim stays
in `[-45, 45]` when it was there before; and trim adjustment is idempotent at
the bounds: any number of `+1` events from trim 45 leaves 45, and any number
of `-1` events from trim -45 leaves -45. -/
theorem C3_trim_invariant :
    steering_trim_init = 0 ∧
    (∀ steering_trim position : Int, ∀ e : RawEvent,
      -MAX_TRIM ≤ steering_trim → steering_trim ≤ MAX_TRIM →
      -MAX_TRIM ≤ (step steering_trim position e).1 ∧
        (step steering_trim position e).1 ≤ MAX_TRIM) ∧
    (∀ position : Int, ∀ n : Nat,
      (fun t => (step t position (RawEvent.mk EV_ABS TRIM_AXIS_CODE 1)).1)^[n] MAX_TRIM =
        MAX_TRIM) ∧
    (∀ position : Int, ∀ n : Nat,
      (fun t => (step t position (RawEvent.mk EV_ABS TRIM_AXIS_CODE (-1))).1)^[n] (-MAX_TRIM) =
        -MAX_TRIM) := by
  refine ⟨rfl, ?_, ?_, ?_⟩
  · intro t pos e h1 h2
    simp only [step, MAX_TRIM, TRIM_STEP] at *
    split_ifs <;> simp <;> omega
  · intro pos n
    have h : (fun t => (step t pos (RawEvent.mk EV_ABS TRIM_AXIS_CODE 1)).1) MAX_TRIM =
        MAX_TRIM := rfl
    exact Function.iterate_fixed h n
  · intro pos n
    have h : (fun t => (step t pos (RawEvent.mk EV_ABS TRIM_AXIS_CODE (-1))).1) (-MAX_TRIM) =
        -MAX_TRIM := rfl
    exact Function.iterate_fixed h n

/-- Witness for C3: the invariant applied at trim 0 and a `+1` trim event. -/
theorem C3_witness :
    -MAX_TRIM ≤ (step 0 0 (RawEvent.mk EV_ABS TRIM_AXIS_CODE 1)).1 ∧
      (step 0 0 (RawEvent.mk EV_ABS TRIM_AXIS_CODE 1)).1 ≤ MAX_TRIM :=
  C3_trim_invariant.2.1 0 0 (RawEvent.mk EV_ABS TRIM_AXIS_CODE 1) (by decide) (by decide)

/-- C9: a trim-axis event with value 0 leaves the trim unchanged and issues
no command at all (no log, no speech, no steering command). -/
theorem C9_trim_rest_noop (steering_trim position : Int) :
    step steering_trim position (RawEvent.mk EV_ABS TRIM_AXIS_CODE 0) =
      (steering_trim, []) := rfl

/-- C10: a trim-axis event whose value is nonzero but neither -1 nor +1
leaves the trim unchanged (given the trim invariant), yet still prints the
trim-update log, speaks the unchanged trim value and issues a steering
command to the current trim. -/
theorem C10_trim_other_value (steering_trim position v : Int)
    (h1 : -MAX_TRIM ≤ steering_trim) (h2 : steering_trim ≤ MAX_TRIM)
    (h3 : v ≠ 0) (h4 : v ≠ -1) (h5 : v ≠ 1) :
    step steering_trim position (RawEvent.mk EV_ABS TRIM_AXIS_CODE v) =
      (steering_trim,
        [Cmd.printTrim steering_trim, Cmd.speakTrim steering_trim,
          Cmd.steerTo steering_trim STEERING_SPEED StopAction.coast]) := by
  have hc : max (-MAX_TRIM) (min MAX_TRIM steering_trim) = steering_trim := by
    simp only [MAX_TRIM] at *
    omega
  simp only [step, EV_ABS, EV_KEY, TRIM_AXIS_CODE, STEERING_AXIS_CODE, TRIM_STEP]
  norm_num [h3, h4, h5, hc]

/-- Witness for C10 at trim 0, position 0, value 2. -/
theorem C10_witness :
    step 0 0 (RawEvent.mk EV_ABS TRIM_AXIS_CODE 2) =
      (0, [Cmd.printTrim 0, Cmd.speakTrim 0,
        Cmd.steerTo 0 STEERING_SPEED StopAction.coast]) :=
  C10_trim_other_value 0 0 2 (by decide) (by decide) (by decide) (by decide) (by decide)

/-- C5 (counterexample): the claim says a D-pad event with value -1 at trim 45
leaves trim at 45; the code decrements to 44 (the clamp only binds at -45 for
a `-1` step). -/
theorem C5_counterexample :
    (step 45 0 (RawEvent.mk EV_ABS TRIM_AXIS_CODE (-1))).1 = 44 ∧
      ¬ (step 45 0 (RawEvent.mk EV_ABS TRIM_AXIS_CODE (-1))).1 = 45 := by decide

/-- C5 (amended): a D-pad event with value -1 at trim 45 yields trim 44, and
the log, the audio announcement and an absolute-position steering command are
all issued with the new value 44. -/
theorem C5_amended (position : Int) :
    step 45 position (RawEvent.mk EV_ABS TRIM_AXIS_CODE (-1)) =
      (44, [Cmd.printTrim 44, Cmd.speakTrim 44,
        Cmd.steerTo 44 STEERING_SPEED StopAction.coast]) := rfl

/-- C8: drive keys are processed in event arrival order: forward value 1 then
value 0 yields full-speed-forward `(100, 100)` then stop-without-brake, in
that order; a reverse press yields `(-100, -100)` and its release stops
without braking; a brake press stops with braking and its release stops
without braking. -/
theorem C8_drive_keys (position : Int) :
    (run 0 position
      [RawEvent.mk EV_KEY ACCEL_CODE 1, RawEvent.mk EV_KEY ACCEL_CODE 0]).2 =
      [Cmd.tankOn FULL_SPEED FULL_SPEED, Cmd.tankOff false] ∧
    keyCmds REVERSE_CODE 1 = [Cmd.tankOn (-FULL_SPEED) (-FULL_SPEED)] ∧
    keyCmds REVERSE_CODE 0 = [Cmd.tankOff false] ∧
    keyCmds BRAKE_CODE 1 = [Cmd.tankOff true] ∧
    keyCmds BRAKE_CODE 0 = [Cmd.tankOff false] := by
  refine ⟨rfl, rfl, rfl, rfl, rfl⟩

/-! ## Setup failure handling (lines 61-70) -/

/-- The two setup failures caught at lines 65 and 68. -/
inductive SetupError
  | fileNotFound
  | permissionDenied
  deriving DecidableEq

/-- The diagnostic printed for each setup failure (lines 66 and 69), with the
`format` placeholder substituted.  The quotes around the word sudo in the
source are written with escapes. -/
def setupDiagnostic : SetupError → String
  | SetupError.fileNotFound =>
      "Error: Controller not found at " ++ CONTROLLER_PATH ++
        ". Check your USB connection and path."
  | SetupError.permissionDenied =>
      "Error: Permission denied. You must run the script with \x27sudo\x27."

/-- The process exit status on each setup failure: `sys.exit(1)` at lines 67
and 70, reached before the run loop of line 78. -/
def setupExitCode : SetupError → Nat :=
  fun _ => 1

/-! ## Shutdown control flow (lines 75, 153-161) -/

/-- The ways the program can leave the main loop region. -/
inductive ExitPath
  | normalLoopExit
  | keyboardInterrupt
  | runLoopException
  | setupFailure
  deriving DecidableEq

/-- The body of the `finally` block (lines 158-161). -/
def finallyCmds : List Cmd :=
  [Cmd.tankOff false, Cmd.setStopAction StopAction.brake, Cmd.steerOff]

/-- The actuator commands of the `except KeyboardInterrupt` handler
(lines 153-157). -/
def interruptHandlerCmds : List Cmd :=
  [Cmd.tankOff false, Cmd.setStopAction StopAction.brake, Cmd.steerOff]

/-- The actuator commands executed on each exit path.  On a normal end of the
event loop or on an uncaught exception inside the `try`, only the `finally`
block runs; on `KeyboardInterrupt` the handler runs and then the `finally`
block; on a setup failure `sys.exit(1)` (lines 67 and 70) is reached before
the `try` of line 75, so no actuator command is issued at all. -/
def exitActuatorCommands : ExitPath → List Cmd
  | ExitPath.normalLoopExit => finallyCmds
  | ExitPath.keyboardInterrupt => interruptHandlerCmds ++ finallyCmds
  | ExitPath.runLoopException => finallyCmds
  | ExitPath.setupFailure => []

/-- The shutdown sequence the spec requires: stop the drive outputs without
braking, set the steering stop behavior to braking, power off the steering
actuator. -/
def shutdownSeq : List Cmd :=
  [Cmd.tankOff false, Cmd.setStopAction StopAction.brake, Cmd.steerOff]

/-- C6 (counterexample): on the fatal-setup-error exit path the shutdown
sequence does not execute — no actuator command is issued at all. -/
theorem C6_counterexample :
    ¬ shutdownSeq <:+ exitActuatorCommands ExitPath.setupFailure := by decide

/-- C6 (amended): on every exit path other than a fatal setup error (normal
loop exit, operator interrupt, or an exception in the run loop), the program
finishes by stopping the drive outputs without braking, setting the steering
actuator stop behavior to braking, and powering off the steering actuator. -/
theorem C6_shutdown_on_exit (p : ExitPath) (h : p ≠ ExitPath.setupFailure) :
    shutdownSeq <:+ exitActuatorCommands p := by
  cases p
  · decide
  · decide
  · decide
  · exact absurd rfl h

/-- Witness for C6 on the interrupt path. -/
theorem C6_witness : shutdownSeq <:+ exitActuatorCommands ExitPath.keyboardInterrupt :=
  C6_shutdown_on_exit ExitPath.keyboardInterrupt (by decide)

/-- C7 (counterexample): on permission denied, the printed diagnostic does
not contain the configured device path. -/
theorem C7_counterexample :
    ¬ CONTROLLER_PATH.data <:+: (setupDiagnostic SetupError.permissionDenied).data := by
  decide

/-- C7 (amended): on a setup failure the program exits with status 1; the
device-not-found diagnostic names the failure kind and the configured device
path, while the permission-denied diagnostic names only the failure kind
(and suggests sudo), not the path. -/
theorem C7_setup_failure_diagnostics :
    "not found".data <:+: (setupDiagnostic SetupError.fileNotFound).data ∧
    CONTROLLER_PATH.data <:+: (setupDiagnostic SetupError.fileNotFound).data ∧
    "Permission denied".data <:+: (setupDiagnostic SetupError.permissionDenied).data ∧
    (∀ e : SetupError, setupExitCode e = 1) := by
  refine ⟨by decide, by decide, by decide, ?_⟩
  intro e
  cases e <;> rfl

end LegoRcCar
